import Mathlib

/-!
Shallow embedding of futuresort.py: a GUI scheduler that launches a single
Kilosort job at a future time.  Times are modelled as integer seconds on the
local clock; the polling thread is modelled as a function over the finite
trace of observations it makes (the value of the running flag read at each
loop head together with the clock reading of that iteration); the Qt widget
state of SchedulerApp is modelled as an explicit record, and each method as a
pure state transformer.
-/

/-- Python truthiness of an optional string attribute: None and the empty
string are falsy, every other string is truthy.  Used by the guard
not all([self.data_file, self.results_dir, self.probe_file]) in
SchedulerApp.schedule_command. -/
def truthy : Option String → Bool
  | none => false
  | some s => s != ""

/-- Association-list model of a Python dict with string keys and integer
values.  dictGet models d[k] lookup (none when the key is absent). -/
def dictGet : List (String × Int) → String → Option Int
  | [], _ => none
  | (k, v) :: rest, key => if k = key then some v else dictGet rest key

/-- Model of the Python dict item assignment d[k] = v: replaces the value of
an existing key, otherwise appends the binding. -/
def dictSet : List (String × Int) → String → Int → List (String × Int)
  | [], key, val => [(key, val)]
  | (k, v) :: rest, key, val =>
      if k = key then (key, val) :: rest else (k, v) :: dictSet rest key val

/-- Device configuration loaded by kilosort.io.load_probe; only the n_chan
field is read by the code under study. -/
structure Probe where
  n_chan : Int
  deriving DecidableEq

/-- Arguments of the single call the adapter makes to the external pipeline
kilosort.run_kilosort. -/
structure KilosortCall where
  settings : List (String × Int)
  filename : Option String
  probe : Probe
  results_dir : Option String
  deriving DecidableEq

/-- Embedding of run_kilosort (futuresort.py lines 41 to 51).  External
collaborators are parameters: kilosortSettings is the module-level
config.KILOSORT_SETTINGS dict and loadProbe stands for kilosort.io.load_probe.
The source copies the settings dict (settings = config.KILOSORT_SETTINGS.copy())
before assigning settings[n_chan_bin] = probe[n_chan], so the store is applied
to a fresh dict value and the global dict is returned unchanged; the result is
the pipeline call made, the returned message, and the global settings dict
after the call. -/
def run_kilosort (kilosortSettings : List (String × Int))
    (loadProbe : Option String → Probe)
    (data_file results_dir probe_file : Option String) :
    KilosortCall × String × List (String × Int) :=
  let probe := loadProbe probe_file
  let settings := dictSet kilosortSettings ("n_chan_bin") probe.n_chan
  (⟨settings, data_file, probe, results_dir⟩, "Kilosort finished", kilosortSettings)

/-- One iteration of the polling loop in SchedulerThread.run observes the
value of self.running read at the loop head and the clock reading
datetime.now() of that iteration. -/
structure LoopObs where
  running : Bool
  now : Int
  deriving DecidableEq

/-- Observable result of SchedulerThread.run over a finite observation trace:
how many times the Execution Adapter run_kilosort was invoked, how many times
the finished signal was emitted, and the adapter outcome if an invocation
happened (ok for a normal return, error for a raised exception caught by the
except branch). -/
structure RunResult where
  invocations : Nat
  finished : Nat
  outcome : Option (Except String String)

/-- State of a SchedulerThread object: constructor arguments plus the
cooperative stop flag self.running (initially true). -/
structure SchedulerThread where
  scheduled_time : Int
  data_file : Option String
  probe_file : Option String
  results_dir : Option String
  running : Bool
  deriving DecidableEq

/-- Embedding of SchedulerThread.run (futuresort.py lines 69 to 83) as a
function of the observation trace.  Each iteration first reads the flag
(while self.running), then the clock; when now is at or past the scheduled
time it invokes run_kilosort once inside try/except, emits finished, and
breaks out of the loop regardless of the adapter outcome; otherwise it sleeps
and loops.  An exhausted trace means the loop was still polling when
observation stopped: nothing has been invoked or emitted. -/
def SchedulerThread.run (target : Int) (adapter : Except String String) :
    List LoopObs → RunResult
  | [] => ⟨0, 0, none⟩
  | o :: rest =>
      if o.running then
        if target ≤ o.now then ⟨1, 1, some adapter⟩
        else SchedulerThread.run target adapter rest
      else ⟨0, 0, none⟩

/-- Embedding of SchedulerThread.stop (futuresort.py lines 85 to 86): clears
the cooperative running flag. -/
def SchedulerThread.stop (t : SchedulerThread) : SchedulerThread :=
  { t with running := false }

/-- Widget and attribute state of SchedulerApp that the scheduling methods
read or write: the three path attributes, the datetime edit widget value, the
scheduled_time attribute, the countdown label text, enabled state and
style/text of the two buttons, the running attribute, and the scheduler
thread object if one was created. -/
structure AppState where
  data_file : Option String
  results_dir : Option String
  probe_file : Option String
  datetime_edit : Int
  scheduled_time : Option Int
  countdown_label : String
  schedule_enabled : Bool
  cancel_enabled : Bool
  schedule_style : String
  schedule_text : String
  running : Bool
  scheduler_thread : Option SchedulerThread
  deriving DecidableEq

/-- Initial state built by SchedulerApp.__init__ with DEBUG_MODE false: no
paths selected, datetime edit showing the current time, cancel disabled. -/
def SchedulerApp.initState (now : Int) : AppState :=
  { data_file := none
    results_dir := none
    probe_file := none
    datetime_edit := now
    scheduled_time := none
    countdown_label := "Not scheduled"
    schedule_enabled := true
    cancel_enabled := false
    schedule_style := ""
    schedule_text := "Schedule"
    running := false
    scheduler_thread := none }

/-- Which exit schedule_command took: the silent early return on a missing
path, the early return after setting the label on a past target time, or a
successful start of a scheduler thread. -/
inductive ScheduleResult
  | missingPaths
  | timePassed
  | started
  deriving DecidableEq

/-- Embedding of SchedulerApp.schedule_command (futuresort.py lines 282 to
305).  If any of the three paths is falsy the method returns at once with no
state change at all.  Otherwise it stores the widget time into
self.scheduled_time; if that time is not strictly in the future it sets the
countdown label, resets the button style and returns.  Otherwise it creates
and starts a SchedulerThread with the job parameters (unconditionally
replacing any thread stored before), disables the schedule button, enables
cancel, and restyles the schedule button. -/
def SchedulerApp.schedule_command (st : AppState) (now : Int) :
    AppState × ScheduleResult :=
  if truthy st.data_file && truthy st.results_dir && truthy st.probe_file then
    if st.datetime_edit ≤ now then
      ({ st with
          scheduled_time := some st.datetime_edit
          countdown_label := "Scheduled time has passed"
          schedule_style := "" }, ScheduleResult.timePassed)
    else
      ({ st with
          scheduled_time := some st.datetime_edit
          scheduler_thread :=
            some ⟨st.datetime_edit, st.data_file, st.probe_file, st.results_dir, true⟩
          schedule_enabled := false
          cancel_enabled := true
          schedule_style := "background-color: red; color: black;"
          schedule_text := "Scheduled" }, ScheduleResult.started)
  else (st, ScheduleResult.missingPaths)

/-- Embedding of SchedulerApp.cancel_schedule (futuresort.py lines 307 to
316).  If a scheduler thread attribute exists it calls stop on it (and joins
it); the hasattr guard is the match on the option.  It then unconditionally
resets the countdown label, re-enables schedule, disables cancel, and restores
the button style and text. -/
def SchedulerApp.cancel_schedule (st : AppState) : AppState :=
  let st1 :=
    match st.scheduler_thread with
    | none => st
    | some t => { st with scheduler_thread := some t.stop }
  { st1 with
      countdown_label := "Not scheduled"
      schedule_enabled := true
      cancel_enabled := false
      schedule_style := ""
      schedule_text := "Schedule" }

/-- Embedding of SchedulerApp.on_execution_finished (futuresort.py lines 339
to 345), the slot connected to the finished signal of the worker: clears the
running attribute, re-enables schedule, disables cancel, restores the button
style and text, and reports completion in the countdown label. -/
def SchedulerApp.on_execution_finished (st : AppState) : AppState :=
  { st with
      running := false
      schedule_enabled := true
      cancel_enabled := false
      schedule_style := ""
      schedule_text := "Schedule"
      countdown_label := "Action finished" }

/-- Midnight of the current local day of clock reading t, in seconds:
models datetime.now().date() taken as the start of that day. -/
def dayStart (t : Int) : Int := (t / 86400) * 86400

/-- Instant at hour h of the current local day of clock reading t: models
datetime.combine(current_date, datetime.min.time().replace(hour=value)). -/
def todayAt (t : Int) (h : Int) : Int := dayStart t + h * 3600

/-- Local hour of clock reading t, in the range 0 to 23. -/
def localHour (t : Int) : Int := (t % 86400) / 3600

/-- Embedding of SchedulerApp.set_scheduled_time (futuresort.py lines 347 to
375) up to the final widget write: given the current time and the arguments
time_type, value, unit, it returns the computed scheduled time, or the
message of the ValueError the source raises.  The relative branch adds value
seconds or value hours to the current time; the absolute branch rejects an
hour outside 0..23, takes hour value of the current day and rolls over to the
next day when that instant is not strictly in the future; any other
time_type, or any other unit under the relative branch, is rejected. -/
def SchedulerApp.set_scheduled_time (now : Int) (time_type : String)
    (value : Int) (unit : String) : Except String Int :=
  if time_type = "relative" then
    if unit = "seconds" then Except.ok (now + value)
    else if unit = "hours" then Except.ok (now + value * 3600)
    else Except.error ("Unsupported unit: " ++ unit)
  else if time_type = "absolute" then
    if value < 0 ∨ value > 23 then
      Except.error ("Hour must be between 0 and 23")
    else
      if todayAt now value ≤ now then Except.ok (todayAt now value + 86400)
      else Except.ok (todayAt now value)
  else Except.error ("Unsupported time type: " ++ time_type)

/-- Effect of SchedulerApp.set_scheduled_time on the application state: on
success the final line writes the computed time into the datetime edit
widget; when a ValueError is raised the write is never reached and the state
is untouched. -/
def SchedulerApp.set_scheduled_time_state (st : AppState) (now : Int)
    (time_type : String) (value : Int) (unit : String) : AppState :=
  match SchedulerApp.set_scheduled_time now time_type value unit with
  | Except.ok t => { st with datetime_edit := t }
  | Except.error _ => st

/-! Helper lemmas about the polling loop. -/

/-- If every iteration sees the running flag true and some iteration is due,
the loop executes exactly once, emits finished exactly once, and records the
adapter outcome. -/
theorem run_all_true_due (target : Int) (adapter : Except String String)
    (tr : List LoopObs) (hflags : ∀ o ∈ tr, o.running = true)
    (hdue : ∃ o ∈ tr, target ≤ o.now) :
    SchedulerThread.run target adapter tr = ⟨1, 1, some adapter⟩ := by
  induction tr with
  | nil => simp at hdue
  | cons o rest ih =>
    have hr : o.running = true := hflags o (by simp)
    by_cases hd : target ≤ o.now
    · simp [SchedulerThread.run, hr, hd]
    · have hrest : SchedulerThread.run target adapter rest = ⟨1, 1, some adapter⟩ := by
        apply ih
        · intro p hp
          exact hflags p (by simp [hp])
        · rcases hdue with ⟨p, hp, hple⟩
          rcases List.mem_cons.mp hp with h | h
          · exact absurd (h ▸ hple) hd
          · exact ⟨p, h, hple⟩
      simp [SchedulerThread.run, hr, hd, hrest]

/-- If no iteration before the one observing a cleared flag is due, the loop
exits without invoking the adapter and without emitting finished, whatever
comes later in the trace. -/
theorem run_stop_before_due (target : Int) (adapter : Except String String)
    (pre : List LoopObs) (o : LoopObs) (post : List LoopObs)
    (hpre : ∀ p ∈ pre, p.now < target) (hstop : o.running = false) :
    SchedulerThread.run target adapter (pre ++ o :: post) = ⟨0, 0, none⟩ := by
  induction pre with
  | nil => simp [SchedulerThread.run, hstop]
  | cons p rest ih =>
    have hnd : ¬ target ≤ p.now := not_le.mpr (hpre p (by simp))
    by_cases hr : p.running = true
    · simpa [SchedulerThread.run, hr, hnd] using
        ih (fun q hq => hpre q (by simp [hq]))
    · have hpf : p.running = false := by simpa using hr
      simp [SchedulerThread.run, hpf]

/-- Once a due iteration is reached with the flag still set, the result is
fixed: one invocation, one finished emission, the adapter outcome recorded,
and the rest of the trace after the due iteration is irrelevant. -/
theorem run_first_due (target : Int) (adapter : Except String String)
    (pre : List LoopObs) (o : LoopObs) (post : List LoopObs)
    (hpre : ∀ p ∈ pre, p.running = true ∧ p.now < target)
    (hr : o.running = true) (hd : target ≤ o.now) :
    SchedulerThread.run target adapter (pre ++ o :: post) = ⟨1, 1, some adapter⟩ := by
  induction pre with
  | nil => simp [SchedulerThread.run, hr, hd]
  | cons p rest ih =>
    obtain ⟨hpr, hpn⟩ := hpre p (by simp)
    simpa [SchedulerThread.run, hpr, not_le.mpr hpn] using
      ih (fun q hq => hpre q (by simp [hq]))

/-- On every trace the number of finished emissions equals the number of
adapter invocations, and that number is zero or one. -/
theorem run_finished_eq_invocations (target : Int) (adapter : Except String String)
    (tr : List LoopObs) :
    (SchedulerThread.run target adapter tr).finished =
      (SchedulerThread.run target adapter tr).invocations ∧
    (SchedulerThread.run target adapter tr).invocations ≤ 1 := by
  induction tr with
  | nil => simp [SchedulerThread.run]
  | cons o rest ih =>
    by_cases hr : o.running = true
    · by_cases hd : target ≤ o.now
      · simp [SchedulerThread.run, hr, hd]
      · simpa [SchedulerThread.run, hr, hd] using ih
    · have hof : o.running = false := by simpa using hr
      simp [SchedulerThread.run, hof]

/-- Control-surface facts of cancel_schedule: whatever the state, it leaves
the countdown label, the two buttons and the schedule-button style and text
in the idle configuration. -/
theorem cancel_schedule_controls (st : AppState) :
    (SchedulerApp.cancel_schedule st).countdown_label = "Not scheduled" ∧
    (SchedulerApp.cancel_schedule st).schedule_enabled = true ∧
    (SchedulerApp.cancel_schedule st).cancel_enabled = false ∧
    (SchedulerApp.cancel_schedule st).schedule_style = "" ∧
    (SchedulerApp.cancel_schedule st).schedule_text = "Schedule" := by
  cases h : st.scheduler_thread <;> simp [SchedulerApp.cancel_schedule, h]

/-- Lookup after a dict store at the same key yields the stored value. -/
theorem dictGet_dictSet_self (d : List (String × Int)) (k : String) (v : Int) :
    dictGet (dictSet d k v) k = some v := by
  induction d with
  | nil => simp [dictSet, dictGet]
  | cons p rest ih =>
    obtain ⟨k1, v1⟩ := p
    by_cases h : k1 = k
    · simp [dictSet, h, dictGet]
    · simp [dictSet, h, dictGet, ih]

/-- Lookup after a dict store at a different key is unchanged. -/
theorem dictGet_dictSet_ne (d : List (String × Int)) (k k2 : String) (v : Int)
    (h : k2 ≠ k) : dictGet (dictSet d k v) k2 = dictGet d k2 := by
  have hk : ¬ k = k2 := fun hh => h hh.symm
  induction d with
  | nil => simp [dictSet, dictGet, hk]
  | cons p rest ih =>
    obtain ⟨k1, v1⟩ := p
    by_cases h1 : k1 = k
    · subst h1
      simp [dictSet, dictGet, hk]
    · simp [dictSet, h1, dictGet, ih]

/-- Claim C8: every call of the Execution Adapter passes to the external
pipeline a settings mapping equal to a copy of the configured settings with
the channel-count field n_chan_bin set to the value taken from the loaded
device configuration, overriding any caller-supplied value for that field;
every other key keeps its configured value and the configured global mapping
itself is returned unchanged after the call. -/
theorem adapter_settings_merge (cfg : List (String × Int))
    (loadProbe : Option String → Probe)
    (data_file results_dir probe_file : Option String) :
    dictGet (run_kilosort cfg loadProbe data_file results_dir
        probe_file).1.settings ("n_chan_bin") = some (loadProbe probe_file).n_chan ∧
    (∀ k, k ≠ "n_chan_bin" →
      dictGet (run_kilosort cfg loadProbe data_file results_dir
          probe_file).1.settings k = dictGet cfg k) ∧
    (run_kilosort cfg loadProbe data_file results_dir probe_file).2.2 = cfg := by
  refine ⟨?_, ?_, rfl⟩
  · simp [run_kilosort, dictGet_dictSet_self]
  · intro k hk
    simp [run_kilosort, dictGet_dictSet_ne _ _ _ _ hk]

/-- Witness for C8 at a concrete configuration that itself carries a stale
n_chan_bin entry: the probe-derived value 96 overrides it and the other key
is preserved. -/
theorem adapter_settings_merge_witness :
    dictGet (run_kilosort [("n_chan_bin", 5), ("batch_size", 7)] (fun _ => ⟨96⟩)
        (some ("d.bin")) (some ("res")) (some ("p.json"))).1.settings ("n_chan_bin")
      = some 96 ∧
    dictGet (run_kilosort [("n_chan_bin", 5), ("batch_size", 7)] (fun _ => ⟨96⟩)
        (some ("d.bin")) (some ("res")) (some ("p.json"))).1.settings ("batch_size")
      = some 7 := by
  constructor
  · exact (adapter_settings_merge [("n_chan_bin", 5), ("batch_size", 7)] (fun _ => ⟨96⟩)
      (some ("d.bin")) (some ("res")) (some ("p.json"))).1
  · exact ((adapter_settings_merge [("n_chan_bin", 5), ("batch_size", 7)] (fun _ => ⟨96⟩)
      (some ("d.bin")) (some ("res")) (some ("p.json"))).2.1 ("batch_size")
        (by decide)).trans rfl

/-- Claim C1: for every armed job that is never cancelled (the running flag
reads true at every poll) whose target time is reached within the observation
trace, the polling loop invokes the Execution Adapter exactly once, even when
several polls in the trace satisfy now at or past target. -/
theorem exactly_once_execution (target : Int) (adapter : Except String String)
    (tr : List LoopObs)
    (hflags : ∀ o ∈ tr, o.running = true)
    (hdue : ∃ o ∈ tr, target ≤ o.now) :
    (SchedulerThread.run target adapter tr).invocations = 1 := by
  rw [run_all_true_due target adapter tr hflags hdue]

/-- Witness for C1 on a trace in which three successive polls are at or past
the target time. -/
theorem exactly_once_execution_witness :
    (SchedulerThread.run 10 (Except.ok ("Kilosort finished"))
      [⟨true, 8⟩, ⟨true, 10⟩, ⟨true, 11⟩, ⟨true, 12⟩]).invocations = 1 :=
  exactly_once_execution 10 (Except.ok ("Kilosort finished"))
    [⟨true, 8⟩, ⟨true, 10⟩, ⟨true, 11⟩, ⟨true, 12⟩] (by decide) (by decide)

/-- Claim C4: a cancellation observed by the polling loop strictly before any
due tick means the Execution Adapter is never invoked and nothing is emitted,
while cancel_schedule itself returns the controls to the idle configuration;
and once a due tick has been taken with the flag still set, the outcome is one
invocation whatever happens later in the trace: observations after the due
tick, including a cleared flag, do not change the result. -/
theorem cancel_before_due_prevents_execution :
    (∀ (target : Int) (adapter : Except String String) (pre : List LoopObs)
        (o : LoopObs) (post : List LoopObs),
        (∀ p ∈ pre, p.now < target) → o.running = false →
        (SchedulerThread.run target adapter (pre ++ o :: post)).invocations = 0 ∧
        (SchedulerThread.run target adapter (pre ++ o :: post)).finished = 0) ∧
    (∀ st : AppState,
        (SchedulerApp.cancel_schedule st).schedule_enabled = true ∧
        (SchedulerApp.cancel_schedule st).cancel_enabled = false ∧
        (SchedulerApp.cancel_schedule st).countdown_label = "Not scheduled") ∧
    (∀ (target : Int) (adapter : Except String String) (pre : List LoopObs)
        (o : LoopObs) (post post2 : List LoopObs),
        (∀ p ∈ pre, p.running = true ∧ p.now < target) →
        o.running = true → target ≤ o.now →
        SchedulerThread.run target adapter (pre ++ o :: post) = ⟨1, 1, some adapter⟩ ∧
        SchedulerThread.run target adapter (pre ++ o :: post2) =
          SchedulerThread.run target adapter (pre ++ o :: post)) := by
  refine ⟨?_, ?_, ?_⟩
  · intro target adapter pre o post hpre hstop
    rw [run_stop_before_due target adapter pre o post hpre hstop]
    exact ⟨rfl, rfl⟩
  · intro st
    obtain ⟨h1, h2, h3, _, _⟩ := cancel_schedule_controls st
    exact ⟨h2, h3, h1⟩
  · intro target adapter pre o post post2 hpre hr hd
    rw [run_first_due target adapter pre o post hpre hr hd,
        run_first_due target adapter pre o post2 hpre hr hd]
    exact ⟨rfl, rfl⟩

/-- Witness for C4: a cleared flag observed before any due poll yields zero
invocations, and a due poll taken before the cancellation yields exactly one
invocation despite the later cleared flag. -/
theorem cancel_before_due_prevents_execution_witness :
    ((SchedulerThread.run 100 (Except.ok ("m"))
        ([⟨true, 50⟩, ⟨true, 99⟩] ++ ⟨false, 120⟩ :: [])).invocations = 0 ∧
     (SchedulerThread.run 100 (Except.ok ("m"))
        ([⟨true, 50⟩, ⟨true, 99⟩] ++ ⟨false, 120⟩ :: [])).finished = 0) ∧
    SchedulerThread.run 100 (Except.ok ("m"))
        ([⟨true, 50⟩] ++ ⟨true, 100⟩ :: [⟨false, 101⟩]) =
      ⟨1, 1, some (Except.ok ("m"))⟩ := by
  constructor
  · exact cancel_before_due_prevents_execution.1 100 (Except.ok ("m"))
      [⟨true, 50⟩, ⟨true, 99⟩] ⟨false, 120⟩ [] (by decide) rfl
  · exact (cancel_before_due_prevents_execution.2.2 100 (Except.ok ("m"))
      [⟨true, 50⟩] ⟨true, 100⟩ [⟨false, 101⟩] [] (by decide) rfl (by decide)).1

/-- Claim C5: when the Execution Adapter raises, the loop still makes exactly
one attempt (no retry), still emits the finished signal once, records the
error as the outcome, and the finished slot re-enables schedule and disables
cancel so the engine is reusable. -/
theorem failure_single_attempt (target : Int) (err : String) (tr : List LoopObs)
    (hflags : ∀ o ∈ tr, o.running = true)
    (hdue : ∃ o ∈ tr, target ≤ o.now) :
    (SchedulerThread.run target (Except.error err) tr).invocations = 1 ∧
    (SchedulerThread.run target (Except.error err) tr).finished = 1 ∧
    (SchedulerThread.run target (Except.error err) tr).outcome =
      some (Except.error err) ∧
    (∀ st : AppState,
        (SchedulerApp.on_execution_finished st).schedule_enabled = true ∧
        (SchedulerApp.on_execution_finished st).cancel_enabled = false) := by
  rw [run_all_true_due target (Except.error err) tr hflags hdue]
  exact ⟨rfl, rfl, rfl, fun st => ⟨rfl, rfl⟩⟩

/-- Witness for C5 with a concrete raising adapter. -/
theorem failure_single_attempt_witness :
    (SchedulerThread.run 10 (Except.error ("boom"))
      [⟨true, 3⟩, ⟨true, 10⟩, ⟨true, 20⟩]).invocations = 1 ∧
    (SchedulerThread.run 10 (Except.error ("boom"))
      [⟨true, 3⟩, ⟨true, 10⟩, ⟨true, 20⟩]).finished = 1 :=
  ⟨(failure_single_attempt 10 ("boom") [⟨true, 3⟩, ⟨true, 10⟩, ⟨true, 20⟩]
      (by decide) (by decide)).1,
   (failure_single_attempt 10 ("boom") [⟨true, 3⟩, ⟨true, 10⟩, ⟨true, 20⟩]
      (by decide) (by decide)).2.1⟩

/-- Claim C9: the finished signal is emitted exactly as many times as the
adapter is invoked (so it is emitted iff an execution attempt occurred); a
loop that exits because the flag was cleared before any due poll emits
nothing and records no outcome; and the idle reset of the controls on
cancellation is performed by cancel_schedule itself, synchronously, for every
state. -/
theorem finished_iff_executed :
    (∀ (target : Int) (adapter : Except String String) (tr : List LoopObs),
        (SchedulerThread.run target adapter tr).finished =
          (SchedulerThread.run target adapter tr).invocations) ∧
    (∀ (target : Int) (adapter : Except String String) (pre : List LoopObs)
        (o : LoopObs) (post : List LoopObs),
        (∀ p ∈ pre, p.now < target) → o.running = false →
        (SchedulerThread.run target adapter (pre ++ o :: post)).finished = 0 ∧
        (SchedulerThread.run target adapter (pre ++ o :: post)).outcome = none) ∧
    (∀ st : AppState,
        (SchedulerApp.cancel_schedule st).schedule_enabled = true ∧
        (SchedulerApp.cancel_schedule st).cancel_enabled = false ∧
        (SchedulerApp.cancel_schedule st).countdown_label = "Not scheduled") := by
  refine ⟨?_, ?_, ?_⟩
  · intro target adapter tr
    exact (run_finished_eq_invocations target adapter tr).1
  · intro target adapter pre o post hpre hstop
    rw [run_stop_before_due target adapter pre o post hpre hstop]
    exact ⟨rfl, rfl⟩
  · intro st
    obtain ⟨h1, h2, h3, _, _⟩ := cancel_schedule_controls st
    exact ⟨h2, h3, h1⟩

/-- Witness for C9: a loop cancelled before its target emits no finished
signal and records no outcome. -/
theorem finished_iff_executed_witness :
    (SchedulerThread.run 60 (Except.ok ("m"))
      ([⟨true, 10⟩] ++ ⟨false, 20⟩ :: [])).finished = 0 ∧
    (SchedulerThread.run 60 (Except.ok ("m"))
      ([⟨true, 10⟩] ++ ⟨false, 20⟩ :: [])).outcome = none :=
  finished_iff_executed.2.1 60 (Except.ok ("m")) [⟨true, 10⟩] ⟨false, 20⟩ []
    (by decide) rfl

/-- Claim C10: cancel_schedule is safe when no job was ever scheduled: the
hasattr guard makes the missing-thread case a no-op on the thread attribute,
no execution is performed, the control surface is left in the idle
configuration from any state, and the whole method is idempotent. -/
theorem cancel_never_scheduled_safe :
    (∀ st : AppState, st.scheduler_thread = none →
        (SchedulerApp.cancel_schedule st).scheduler_thread = none) ∧
    (∀ st : AppState,
        (SchedulerApp.cancel_schedule st).countdown_label = "Not scheduled" ∧
        (SchedulerApp.cancel_schedule st).schedule_enabled = true ∧
        (SchedulerApp.cancel_schedule st).cancel_enabled = false) ∧
    (∀ st : AppState,
        SchedulerApp.cancel_schedule (SchedulerApp.cancel_schedule st) =
          SchedulerApp.cancel_schedule st) := by
  refine ⟨?_, ?_, ?_⟩
  · intro st h
    simp [SchedulerApp.cancel_schedule, h]
  · intro st
    obtain ⟨h1, h2, h3, _, _⟩ := cancel_schedule_controls st
    exact ⟨h1, h2, h3⟩
  · intro st
    cases h : st.scheduler_thread <;>
      simp [SchedulerApp.cancel_schedule, SchedulerThread.stop, h]

/-- Witness for C10 at the freshly initialised application state. -/
theorem cancel_never_scheduled_safe_witness :
    (SchedulerApp.cancel_schedule (SchedulerApp.initState 0)).scheduler_thread
      = none :=
  cancel_never_scheduled_safe.1 (SchedulerApp.initState 0) rfl

/-- Armed application state: a job is scheduled for time 100 with valid
paths, the schedule button is disabled, cancel is enabled and a live
scheduler thread exists; the widget meanwhile shows time 200. -/
def armedState : AppState :=
  { data_file := some ("data.bin")
    results_dir := some ("results")
    probe_file := some ("probe.json")
    datetime_edit := 200
    scheduled_time := some 100
    countdown_label := "Time until execution: 0d 0h 0m 50s"
    schedule_enabled := false
    cancel_enabled := true
    schedule_style := "background-color: red; color: black;"
    schedule_text := "Scheduled"
    running := false
    scheduler_thread :=
      some ⟨100, some ("data.bin"), some ("probe.json"), some ("results"), true⟩ }

/-- Claim C2 counterexample: schedule_command invoked while a job is armed
(the engine is not idle) does not fail and accepts a new job: with valid
paths and a future widget time the call starts a fresh scheduler thread and
replaces the stored one, mutating the active job.  No AlreadyScheduledError
and no idle check exist anywhere in the source. -/
theorem schedule_while_armed_accepted :
    (SchedulerApp.schedule_command armedState 150).2 = ScheduleResult.started ∧
    (SchedulerApp.schedule_command armedState 150).1.scheduler_thread =
      some ⟨200, some ("data.bin"), some ("probe.json"), some ("results"), true⟩ ∧
    (SchedulerApp.schedule_command armedState 150).1.scheduler_thread ≠
      armedState.scheduler_thread := by
  refine ⟨rfl, rfl, ?_⟩
  decide

/-- Claim C2 amended: schedule_command performs no idle check and raises no
error when a previously scheduled job is still armed or running; for every
state with truthy paths and a strictly future widget time, whatever scheduler
thread is stored, the call succeeds, overwrites the stored thread with a new
one built from the current fields, and the only guard against re-entry is at
the UI level: a successful call leaves the schedule button disabled. -/
theorem schedule_no_idle_guard (st : AppState) (now : Int)
    (hd : truthy st.data_file = true) (hr : truthy st.results_dir = true)
    (hp : truthy st.probe_file = true) (hf : now < st.datetime_edit) :
    (SchedulerApp.schedule_command st now).2 = ScheduleResult.started ∧
    (SchedulerApp.schedule_command st now).1.scheduler_thread =
      some ⟨st.datetime_edit, st.data_file, st.probe_file, st.results_dir, true⟩ ∧
    (SchedulerApp.schedule_command st now).1.schedule_enabled = false := by
  simp [SchedulerApp.schedule_command, hd, hr, hp, not_le.mpr hf]

/-- Witness for the amended C2, applied to the armed state: the second call
is accepted and the button guard is in force. -/
theorem schedule_no_idle_guard_witness :
    (SchedulerApp.schedule_command armedState 150).2 = ScheduleResult.started ∧
    (SchedulerApp.schedule_command armedState 150).1.schedule_enabled = false :=
  ⟨(schedule_no_idle_guard armedState 150 rfl rfl rfl (by decide)).1,
   (schedule_no_idle_guard armedState 150 rfl rfl rfl (by decide)).2.2⟩

/-- Idle application state in which no data file has been selected while the
other two paths are set and the widget shows a future time. -/
def missingDataState : AppState :=
  { data_file := none
    results_dir := some ("results")
    probe_file := some ("probe.json")
    datetime_edit := 500
    scheduled_time := none
    countdown_label := "Not scheduled"
    schedule_enabled := true
    cancel_enabled := false
    schedule_style := ""
    schedule_text := "Schedule"
    running := false
    scheduler_thread := none }

/-- Claim C3 counterexample: with the data path unset, schedule_command does
not surface any error to the caller: it takes the silent early-return path
and hands back a state identical to the input, countdown label included, so
no ValidationError (nor any message at all) reaches the caller. -/
theorem missing_path_rejected_silently :
    SchedulerApp.schedule_command missingDataState 100 =
      (missingDataState, ScheduleResult.missingPaths) := rfl

/-- Claim C3 amended: schedule_command rejects the request exactly when one
of the three paths is falsy or the widget time is not strictly in the future;
no exception is raised: a missing path causes a silent early return leaving
the state untouched, a past target time only writes the countdown label and
resets the button style; in every failing case no scheduler thread is started
and the control surface keeps its previous configuration. -/
theorem validation_rejects_exactly (st : AppState) (now : Int) :
    ((SchedulerApp.schedule_command st now).2 ≠ ScheduleResult.started ↔
      (¬(truthy st.data_file = true ∧ truthy st.results_dir = true ∧
          truthy st.probe_file = true) ∨ st.datetime_edit ≤ now)) ∧
    ((SchedulerApp.schedule_command st now).2 = ScheduleResult.missingPaths →
      (SchedulerApp.schedule_command st now).1 = st) ∧
    ((SchedulerApp.schedule_command st now).2 = ScheduleResult.timePassed →
      (SchedulerApp.schedule_command st now).1.countdown_label =
        "Scheduled time has passed") ∧
    ((SchedulerApp.schedule_command st now).2 ≠ ScheduleResult.started →
      (SchedulerApp.schedule_command st now).1.scheduler_thread =
        st.scheduler_thread ∧
      (SchedulerApp.schedule_command st now).1.schedule_enabled =
        st.schedule_enabled ∧
      (SchedulerApp.schedule_command st now).1.cancel_enabled =
        st.cancel_enabled) := by
  by_cases hpaths :
      (truthy st.data_file && truthy st.results_dir && truthy st.probe_file) = true
  · by_cases htime : st.datetime_edit ≤ now
    · simp [SchedulerApp.schedule_command, hpaths, htime]
    · simp only [Bool.and_eq_true] at hpaths
      simp [SchedulerApp.schedule_command, hpaths.1.1, hpaths.1.2, hpaths.2, htime]
  · have hfalse :
        (truthy st.data_file && truthy st.results_dir && truthy st.probe_file)
          = false := by
      simpa using hpaths
    have hnot : ¬(truthy st.data_file = true ∧ truthy st.results_dir = true ∧
        truthy st.probe_file = true) := by
      intro hall
      simp [hall.1, hall.2.1, hall.2.2] at hfalse
    simp [SchedulerApp.schedule_command, hfalse, hnot]

/-- Witness for the amended C3 at the concrete missing-data state: the
rejection leaves the state exactly as it was. -/
theorem validation_rejects_exactly_witness :
    (SchedulerApp.schedule_command missingDataState 100).1 = missingDataState :=
  (validation_rejects_exactly missingDataState 100).2.1 rfl

/-- Claim C6: under the absolute preset, every hour in 0..23 maps to hour h
of the current local day when that instant is strictly after the current
moment, and rolls over to hour h of the next day when it is at or before the
current moment; in particular at local hour 10, requesting hour 22 stays on
the current day and requesting hour 2 rolls over to the next day. -/
theorem absolute_hour_rollover (now h : Int) (h0 : 0 ≤ h) (h23 : h ≤ 23)
    (u : String) :
    ((now < todayAt now h →
        SchedulerApp.set_scheduled_time now ("absolute") h u =
          Except.ok (todayAt now h)) ∧
     (todayAt now h ≤ now →
        SchedulerApp.set_scheduled_time now ("absolute") h u =
          Except.ok (todayAt now h + 86400))) ∧
    (localHour now = 10 →
        SchedulerApp.set_scheduled_time now ("absolute") 22 u =
          Except.ok (todayAt now 22) ∧
        now < todayAt now 22 ∧
        SchedulerApp.set_scheduled_time now ("absolute") 2 u =
          Except.ok (todayAt now 2 + 86400) ∧
        todayAt now 2 ≤ now) := by
  have hgen : ∀ hh : Int, 0 ≤ hh → hh ≤ 23 →
      (now < todayAt now hh →
        SchedulerApp.set_scheduled_time now ("absolute") hh u =
          Except.ok (todayAt now hh)) ∧
      (todayAt now hh ≤ now →
        SchedulerApp.set_scheduled_time now ("absolute") hh u =
          Except.ok (todayAt now hh + 86400)) := by
    intro hh hh0 hh23
    unfold SchedulerApp.set_scheduled_time
    rw [if_neg (by decide : ¬(("absolute" : String) = "relative")),
      if_pos (rfl : ("absolute" : String) = "absolute"),
      if_neg (by omega : ¬(hh < 0 ∨ hh > 23))]
    constructor
    · intro hlt
      rw [if_neg (not_le.mpr hlt)]
    · intro hle
      rw [if_pos hle]
  refine ⟨hgen h h0 h23, ?_⟩
  intro hlocal
  have hb : 0 ≤ now % 86400 ∧ now % 86400 < 86400 := by
    constructor
    · exact Int.emod_nonneg now (by norm_num)
    · exact Int.emod_lt_of_pos now (by norm_num)
  have hrange : 36000 ≤ now % 86400 ∧ now % 86400 < 39600 := by
    simp only [localHour] at hlocal
    omega
  have hsplit : now = (now / 86400) * 86400 + now % 86400 := by
    rw [mul_comm]
    exact (Int.ediv_add_emod now 86400).symm
  have h22 : now < todayAt now 22 := by
    simp only [todayAt, dayStart]
    omega
  have h2 : todayAt now 2 ≤ now := by
    simp only [todayAt, dayStart]
    omega
  exact ⟨(hgen 22 (by norm_num) (by norm_num)).1 h22, h22,
    (hgen 2 (by norm_num) (by norm_num)).2 h2, h2⟩

/-- Witness for C6 with the clock at second 36000 of day zero, that is local
hour 10: hour 22 maps to second 79200 of the same day and hour 2 maps to
second 93600, that is hour 2 of the next day. -/
theorem absolute_hour_rollover_witness :
    SchedulerApp.set_scheduled_time 36000 ("absolute") 22 ("sec") =
      Except.ok 79200 ∧
    SchedulerApp.set_scheduled_time 36000 ("absolute") 2 ("sec") =
      Except.ok 93600 := by
  have hw := (absolute_hour_rollover 36000 22 (by norm_num) (by norm_num)
    ("sec")).2 (by decide)
  exact ⟨hw.1.trans (by rfl), hw.2.2.1.trans (by rfl)⟩

/-- Claim C7: set_scheduled_time raises exactly when the requested absolute
hour lies outside 0..23 or the time type, or the unit under the relative
type, is unrecognized; and whenever it raises, the application state, in
particular the datetime widget, is left untouched. -/
theorem invalid_preset_parameters (now value : Int) (time_type unit : String)
    (st : AppState) :
    ((∃ e, SchedulerApp.set_scheduled_time now time_type value unit =
        Except.error e) ↔
      ((time_type = "absolute" ∧ (value < 0 ∨ value > 23)) ∨
       (time_type = "relative" ∧ unit ≠ "seconds" ∧ unit ≠ "hours") ∨
       (time_type ≠ "relative" ∧ time_type ≠ "absolute"))) ∧
    ((∃ e, SchedulerApp.set_scheduled_time now time_type value unit =
        Except.error e) →
      SchedulerApp.set_scheduled_time_state st now time_type value unit = st) := by
  constructor
  · by_cases h1 : time_type = "relative"
    · subst h1
      by_cases h2 : unit = "seconds"
      · subst h2
        simp [SchedulerApp.set_scheduled_time]
      · by_cases h3 : unit = "hours"
        · subst h3
          simp [SchedulerApp.set_scheduled_time]
        · simp [SchedulerApp.set_scheduled_time, h2, h3]
    · by_cases h4 : time_type = "absolute"
      · subst h4
        by_cases h5 : value < 0 ∨ value > 23
        · simp [SchedulerApp.set_scheduled_time, h5]
        · by_cases h6 : todayAt now value ≤ now
          · simp [SchedulerApp.set_scheduled_time, h5, h6]
          · simp [SchedulerApp.set_scheduled_time, h5, h6]
      · simp [SchedulerApp.set_scheduled_time, h1, h4]
  · intro he
    obtain ⟨e, he⟩ := he
    simp [SchedulerApp.set_scheduled_time_state, he]

/-- Witness for C7: requesting hour 24 and hour -1 both raise and leave the
freshly initialised state untouched. -/
theorem invalid_preset_parameters_witness :
    SchedulerApp.set_scheduled_time_state (SchedulerApp.initState 0) 0
        ("absolute") 24 ("seconds") = SchedulerApp.initState 0 ∧
    SchedulerApp.set_scheduled_time_state (SchedulerApp.initState 0) 0
        ("absolute") (-1) ("seconds") = SchedulerApp.initState 0 :=
  ⟨(invalid_preset_parameters 0 24 ("absolute") ("seconds")
      (SchedulerApp.initState 0)).2 ⟨"Hour must be between 0 and 23", rfl⟩,
   (invalid_preset_parameters 0 (-1) ("absolute") ("seconds")
      (SchedulerApp.initState 0)).2 ⟨"Hour must be between 0 and 23", rfl⟩⟩
